import Mathlib

/-!
Verification of the media-acquisition decision pipeline of a chat bot
(single-file Python program `main.py`).  The definitions below are a shallow
embedding of that file: process-wide configuration becomes an explicit `Env`
record, the filesystem becomes an explicit listing, the chat transport and the
extraction engine (yt-dlp) become oracles, and each handler returns the list of
observable events (replies, gateway invocations, deliveries) it performs.
-/

set_option maxRecDepth 4096

/-- Substring test over character lists: does the haystack start with the needle?
Mirrors the semantics of the Python operator `in` used for pattern checks. -/
def startsWithChars : List Char → List Char → Bool
  | [], _ => true
  | _ :: _, [] => false
  | a :: as, b :: bs => a = b && startsWithChars as bs

/-- `hasSubChars n h = true` iff `n` occurs contiguously inside `h`. -/
def hasSubChars (needle : List Char) : List Char → Bool
  | [] => startsWithChars needle []
  | c :: cs => startsWithChars needle (c :: cs) || hasSubChars needle cs

/-- The Python substring operator `needle in haystack`. -/
def containsSub (needle haystack : String) : Bool :=
  hasSubChars needle.toList haystack.toList

/-- Python truthiness of an optional string (`if x:`): present and non-empty. -/
def truthy : Option String → Bool
  | none => false
  | some s => !s.isEmpty

/-- `Path.name`: the final path component (after the last slash). -/
def pathName (p : String) : String :=
  String.mk ((p.toList.reverse.takeWhile (fun c => c ≠ '/')).reverse)

/-- Process-wide configuration and filesystem state, read-only per request:
`YT_COOKIES` (line 22), `FFMPEG_PATH` (lines 28-33) and the set of paths that
currently exist on disk. -/
structure Env where
  ytCookies : Option String
  ffmpegPath : Option String
  files : List String
deriving DecidableEq

/-- `MAX_SEND_BYTES = 48 * 1024 * 1024` (line 21): inline-delivery size cap. -/
def MAX_SEND_BYTES : Nat := 48 * 1024 * 1024

/-- `BASE_DIR = Path("/tmp")` (line 20). -/
def BASE_DIR : String := "/tmp"

/-- The extractor info dict: the fields of it the program reads
(`title`, `url`), plus the advisory metadata size estimate `filesize` that the
program never reads. -/
structure Info where
  title : Option String := none
  url : Option String := none
  filesize : Option Nat := none
deriving DecidableEq

/-- `_cookies_path` (lines 56-61): the cookies path, provided `YT_COOKIES` is
set (and non-empty, per Python truthiness) and the file exists on disk. -/
def _cookies_path (env : Env) : Option String :=
  match env.ytCookies with
  | none => none
  | some s => if s.isEmpty then none else if env.files.contains s then some s else none

/-- One entry of the `postprocessors` option list (lines 138-142). -/
structure Postprocessor where
  key : String
  preferredcodec : String
  preferredquality : String
deriving DecidableEq

/-- The yt-dlp option dict: the fields of it the embedding needs
(`_base_opts`, lines 63-83, plus the per-call `format` and `postprocessors`
updates). -/
structure Opts where
  outtmpl : String
  ffmpeg_location : Option String
  cookiefile : Option String
  format : String
  postprocessors : List Postprocessor
deriving DecidableEq

/-- `_base_opts` (lines 63-83): output template, `ffmpeg_location` only when
ffmpeg is available, `cookiefile` only when `_cookies_path` yields one. -/
def _base_opts (env : Env) (outtmpl : String) : Opts :=
  { outtmpl := outtmpl
    ffmpeg_location := if truthy env.ffmpegPath then env.ffmpegPath else none
    cookiefile := _cookies_path env
    format := ""
    postprocessors := [] }

/-- The output template `str(dest_dir / "%(title).200B.%(ext)s")` (line 120). -/
def outtmplFor (destDir : String) : String := destDir ++ "/%(title).200B.%(ext)s"

/-- `"Не удалось отправить файл или получить прямую ссылку."` (line 116). -/
def UNABLE_MSG : String := "Не удалось отправить файл или получить прямую ссылку."

/-- Head of the link reply (lines 110-111). -/
def LINK_HEAD : String :=
  "Файл слишком большой для прямой отправки ботом.\nВот временная ссылка для воспроизведения/скачивания:\n"

/-- Time-limited-link caveat of the link reply (line 113). -/
def LINK_CAVEAT : String := "Если ссылка перестанет работать — пришли команду ещё раз."

/-- The full link reply of `_send_file_or_link` (lines 109-114). -/
def linkMessage (title streamUrl : String) : String :=
  LINK_HEAD ++ title ++ "\n" ++ streamUrl ++ "\n\n" ++ LINK_CAVEAT

/-- A terminal delivery action of `_send_file_or_link`. -/
inductive Delivery where
  | sendAudio (path : String) (caption : String)
  | sendVideo (path : String) (caption : String)
  | sendDocument (path : String) (caption : String)
  | answer (text : String)
deriving DecidableEq

/-- Lines 105-116 of `_send_file_or_link`: link reply when a (truthy) stream
URL is present, otherwise the unable-to-deliver reply. -/
def linkOrUnavailable (info : Info) : Delivery :=
  if truthy info.url then
    Delivery.answer (linkMessage (info.title.getD ("media")) (info.url.getD ("")))
  else
    Delivery.answer UNABLE_MSG

/-- `_send_file_or_link` (lines 90-116), with the filesystem made explicit as
`disk : List (path, size)`: inline delivery when the file exists on disk with
size `≤ MAX_SEND_BYTES` (the caption kind chosen by `kind`), else the
link-or-unavailable tail. -/
def _send_file_or_link (disk : List (String × Nat)) (fpath : String) (info : Info)
    (kind : String) : Delivery :=
  match disk.lookup fpath with
  | some size =>
      if size ≤ MAX_SEND_BYTES then
        if kind == "audio" then Delivery.sendAudio fpath ("🎧 " ++ pathName fpath)
        else if kind == "video" then Delivery.sendVideo fpath ("🎬 " ++ pathName fpath)
        else Delivery.sendDocument fpath ("📎 " ++ pathName fpath)
      else linkOrUnavailable info
  | none => linkOrUnavailable info

/-- Line 96's guard as a single boolean: the path exists on disk and its
actual on-disk size is at most the cap. -/
def onDiskWithinCap (disk : List (String × Nat)) (p : String) : Bool :=
  match disk.lookup p with
  | some size => decide (size ≤ MAX_SEND_BYTES)
  | none => false

-- Helper lemmas about substring containment.

theorem startsWithChars_self_append (n b : List Char) :
    startsWithChars n (n ++ b) = true := by
  induction n with
  | nil => rfl
  | cons c cs ih => simp [startsWithChars, ih]

theorem hasSubChars_self_append (n b : List Char) :
    hasSubChars n (n ++ b) = true := by
  cases n with
  | nil => cases b <;> rfl
  | cons c cs =>
      show (startsWithChars (c :: cs) (c :: (cs ++ b)) || hasSubChars (c :: cs) (cs ++ b)) = true
      have h := startsWithChars_self_append (c :: cs) b
      rw [List.cons_append] at h
      rw [h, Bool.true_or]

theorem hasSubChars_append_left (a : List Char) {n h : List Char}
    (hh : hasSubChars n h = true) : hasSubChars n (a ++ h) = true := by
  induction a with
  | nil => simpa using hh
  | cons c cs ih => simp [hasSubChars, ih]

theorem string_toList_append (a b : String) :
    (a ++ b).toList = a.toList ++ b.toList := by
  cases a
  cases b
  rfl

theorem containsSub_append_mid (a n b : String) :
    containsSub n (a ++ n ++ b) = true := by
  unfold containsSub
  rw [string_toList_append, string_toList_append, List.append_assoc]
  exact hasSubChars_append_left a.toList (hasSubChars_self_append n.toList b.toList)

theorem containsSub_append_right (a n : String) :
    containsSub n (a ++ n) = true := by
  unfold containsSub
  rw [string_toList_append]
  have h := hasSubChars_self_append n.toList []
  rw [List.append_nil] at h
  exact hasSubChars_append_left a.toList h

/-- C1: Delivery decision of `_send_file_or_link`: if the local path exists on
disk with actual size ≤ the 48 MiB cap (inclusive), the file is sent inline
with the kind-appropriate caption; otherwise, if a (truthy) direct stream URL
is present, the link reply carrying the title, the URL and the time-limited
caveat is sent; otherwise the unable-to-deliver reply is sent.  The metadata
size estimate `info.filesize` never influences the decision. -/
theorem c1_delivery_decision (disk : List (String × Nat)) (fpath : String)
    (info : Info) (kind : String) :
    (onDiskWithinCap disk fpath = true →
        _send_file_or_link disk fpath info kind =
          (if kind == "audio" then Delivery.sendAudio fpath ("🎧 " ++ pathName fpath)
           else if kind == "video" then Delivery.sendVideo fpath ("🎬 " ++ pathName fpath)
           else Delivery.sendDocument fpath ("📎 " ++ pathName fpath)))
  ∧ (onDiskWithinCap disk fpath = false → ∀ u : String, info.url = some u → u.isEmpty = false →
        _send_file_or_link disk fpath info kind =
            Delivery.answer (linkMessage (info.title.getD ("media")) u)
        ∧ containsSub (info.title.getD ("media")) (linkMessage (info.title.getD ("media")) u) = true
        ∧ containsSub u (linkMessage (info.title.getD ("media")) u) = true
        ∧ containsSub LINK_CAVEAT (linkMessage (info.title.getD ("media")) u) = true)
  ∧ (onDiskWithinCap disk fpath = false → truthy info.url = false →
        _send_file_or_link disk fpath info kind = Delivery.answer UNABLE_MSG)
  ∧ (∀ est : Option Nat,
        _send_file_or_link disk fpath { info with filesize := est } kind =
        _send_file_or_link disk fpath info kind) := by
  refine ⟨?inline, ?link, ?unable, ?estfree⟩
  case inline =>
    intro h
    unfold onDiskWithinCap at h
    unfold _send_file_or_link
    cases hl : disk.lookup fpath with
    | none => rw [hl] at h; exact absurd h (by simp)
    | some size =>
        rw [hl] at h
        have hle : size ≤ MAX_SEND_BYTES := by exact_mod_cast of_decide_eq_true h
        simp [hle]
  case link =>
    intro h u hu hue
    have hmsg : linkOrUnavailable info =
        Delivery.answer (linkMessage (info.title.getD ("media")) u) := by
      simp [linkOrUnavailable, hu, truthy, hue]
    refine ⟨?eq, ?ttl, ?turl, ?tcav⟩
    case eq =>
      unfold onDiskWithinCap at h
      unfold _send_file_or_link
      cases hl : disk.lookup fpath with
      | none => exact hmsg
      | some size =>
          rw [hl] at h
          simp only [decide_eq_false_iff_not] at h
          simp [h, hmsg]
    case ttl =>
      have hc := containsSub_append_mid LINK_HEAD (info.title.getD ("media"))
        ("\n" ++ u ++ "\n\n" ++ LINK_CAVEAT)
      unfold linkMessage
      simp only [String.append_assoc] at hc ⊢
      exact hc
    case turl =>
      have hc := containsSub_append_mid (LINK_HEAD ++ info.title.getD ("media") ++ "\n") u
        ("\n\n" ++ LINK_CAVEAT)
      unfold linkMessage
      simp only [String.append_assoc] at hc ⊢
      exact hc
    case tcav =>
      have hc := containsSub_append_right
        (LINK_HEAD ++ info.title.getD ("media") ++ "\n" ++ u ++ "\n\n") LINK_CAVEAT
      unfold linkMessage
      simp only [String.append_assoc] at hc ⊢
      exact hc
  case unable =>
    intro h hurl
    have hmsg : linkOrUnavailable info = Delivery.answer UNABLE_MSG := by
      simp [linkOrUnavailable, hurl]
    unfold onDiskWithinCap at h
    unfold _send_file_or_link
    cases hl : disk.lookup fpath with
    | none => exact hmsg
    | some size =>
        rw [hl] at h
        simp only [decide_eq_false_iff_not] at h
        simp [h, hmsg]
  case estfree =>
    intro est
    simp [_send_file_or_link, linkOrUnavailable]

/-- C1 witness: a file of size exactly `MAX_SEND_BYTES` (boundary inclusive) is
sent inline; with no file on disk, a present URL yields the link reply and an
absent URL yields the unable reply. -/
theorem c1_delivery_decision_witness :
    _send_file_or_link [("/tmp/a.m4a", MAX_SEND_BYTES)] ("/tmp/a.m4a")
        { title := some ("Song X"), url := none } ("audio")
      = Delivery.sendAudio ("/tmp/a.m4a") ("🎧 a.m4a")
  ∧ _send_file_or_link [] ("/tmp/b.m4a")
        { title := some ("Song X"), url := some ("http://u.example/v") } ("audio")
      = Delivery.answer (linkMessage ("Song X") ("http://u.example/v"))
  ∧ _send_file_or_link [] ("/tmp/b.m4a") { title := some ("Song X"), url := none } ("audio")
      = Delivery.answer UNABLE_MSG := by
  refine ⟨?w1, ?w2, ?w3⟩
  case w1 =>
    have h := (c1_delivery_decision [("/tmp/a.m4a", MAX_SEND_BYTES)] ("/tmp/a.m4a")
      { title := some ("Song X"), url := none } ("audio")).1 (by decide)
    simpa using h
  case w2 =>
    exact ((c1_delivery_decision [] ("/tmp/b.m4a")
      { title := some ("Song X"), url := some ("http://u.example/v") } ("audio")).2.1
      (by decide) ("http://u.example/v") rfl (by decide)).1
  case w3 =>
    exact (c1_delivery_decision [] ("/tmp/b.m4a")
      { title := some ("Song X"), url := none } ("audio")).2.2.1 (by decide) (by decide)

/-- A Python exception as the classifier sees it: whether it is a
`yt_dlp.utils.DownloadError` instance, and its `str(e)` text. -/
structure Exc where
  isDownloadError : Bool
  text : String
deriving DecidableEq

/-- The closed set of user-facing failure categories (one per reply branch of
`_handle_download_error`). -/
inductive FailureCategory where
  | AuthRequired
  | Private
  | GeoBlocked
  | Unknown
deriving DecidableEq

/-- Pattern `"Sign in to confirm"` (line 170). -/
def SIGN_IN_PATTERN : String := "Sign in to confirm"

/-- Pattern `"account"`, checked against the lowercased text (line 170). -/
def ACCOUNT_PATTERN : String := "account"

/-- Pattern `"This video is private"` (line 184). -/
def PRIVATE_PATTERN : String := "This video is private"

/-- Pattern `"The uploader has not made this video available in your country"`
(line 187). -/
def GEO_PATTERN : String :=
  "The uploader has not made this video available in your country"

/-- The AuthRequired reply body (lines 178-179), without the optional hint. -/
def AUTH_MSG : String :=
  "⚠️ YouTube просит вход в аккаунт или подтверждение. Это видео, вероятно, доступно только для авторизованных пользователей."

/-- The cookies remediation hint (lines 173-176). -/
def COOKIES_HINT : String :=
  "\n\n💡 Совет: добавь cookies.txt (переменная окружения YT_COOKIES) — тогда можно скачивать видео, которые требуют входа."

/-- The Private reply (line 185). -/
def PRIVATE_MSG : String := "⚠️ Видео приватное. Его нельзя скачать ботом."

/-- The GeoBlocked reply (line 188). -/
def GEO_MSG : String := "⚠️ Видео недоступно в регионе."

/-- Python `str.lower()` (character-wise lowercasing). -/
def strToLower (s : String) : String := String.mk (s.toList.map Char.toLower)

/-- The guard of the first classifier branch (line 170):
`isinstance(e, DownloadError) and ("Sign in to confirm" in text or "account" in text.lower())`. -/
def authMatch (e : Exc) : Bool :=
  e.isDownloadError &&
    (containsSub SIGN_IN_PATTERN e.text || containsSub ACCOUNT_PATTERN (strToLower e.text))

/-- `_handle_download_error` (lines 167-191), returning the category of the
branch taken together with the reply text sent. -/
def _handle_download_error (env : Env) (e : Exc) : FailureCategory × String :=
  if authMatch e then
    let cookies_hint := if (_cookies_path env).isNone then COOKIES_HINT else ""
    (FailureCategory.AuthRequired, AUTH_MSG ++ cookies_hint)
  else if containsSub PRIVATE_PATTERN e.text then
    (FailureCategory.Private, PRIVATE_MSG)
  else if containsSub GEO_PATTERN e.text then
    (FailureCategory.GeoBlocked, GEO_MSG)
  else
    (FailureCategory.Unknown, "Ошибка: " ++ e.text)

/-- An environment with no cookies, no ffmpeg and an empty disk. -/
def bareEnv : Env := { ytCookies := none, ffmpegPath := none, files := [] }

/-- A failure detail carrying both an age-restriction marker and a
private-video marker. -/
def bothMarkersDetail : String :=
  "Sign in to confirm your age. This video is private."

/-- C2 counterexample: a failure detail containing both the private marker and
the age-restriction marker, raised as an exception that is not a
`DownloadError`, is classified Private — not AuthRequired as the claim states
for every failure detail. -/
theorem c2_counterexample :
    containsSub PRIVATE_PATTERN bothMarkersDetail = true
  ∧ containsSub SIGN_IN_PATTERN bothMarkersDetail = true
  ∧ (_handle_download_error bareEnv
      { isDownloadError := false, text := bothMarkersDetail }).1 = FailureCategory.Private := by
  refine ⟨by decide, by decide, by decide⟩

/-- C2 (amended): classifier precedence, with the first rung additionally
gated on the failure being a `DownloadError` instance: DownloadError with a
login/age/account marker → AuthRequired; else private marker → Private; else
geo marker → GeoBlocked; else Unknown with the verbatim detail surfaced.  In
particular a `DownloadError` whose detail contains both a private marker and
an age-restriction marker is classified AuthRequired, never Private. -/
theorem c2_classifier_precedence (env : Env) (e : Exc) :
    (authMatch e = true → (_handle_download_error env e).1 = FailureCategory.AuthRequired)
  ∧ (authMatch e = false → containsSub PRIVATE_PATTERN e.text = true →
        _handle_download_error env e = (FailureCategory.Private, PRIVATE_MSG))
  ∧ (authMatch e = false → containsSub PRIVATE_PATTERN e.text = false →
        containsSub GEO_PATTERN e.text = true →
        _handle_download_error env e = (FailureCategory.GeoBlocked, GEO_MSG))
  ∧ (authMatch e = false → containsSub PRIVATE_PATTERN e.text = false →
        containsSub GEO_PATTERN e.text = false →
        _handle_download_error env e = (FailureCategory.Unknown, "Ошибка: " ++ e.text))
  ∧ (e.isDownloadError = true → containsSub SIGN_IN_PATTERN e.text = true →
        containsSub PRIVATE_PATTERN e.text = true →
        (_handle_download_error env e).1 = FailureCategory.AuthRequired) := by
  refine ⟨?auth, ?priv, ?geo, ?unk, ?both⟩
  case auth =>
    intro h
    unfold _handle_download_error
    rw [h]
    simp
  case priv =>
    intro h hp
    simp [_handle_download_error, h, hp]
  case geo =>
    intro h hp hg
    simp [_handle_download_error, h, hp, hg]
  case unk =>
    intro h hp hg
    simp [_handle_download_error, h, hp, hg]
  case both =>
    intro hd hs _
    have h : authMatch e = true := by simp [authMatch, hd, hs]
    unfold _handle_download_error
    rw [h]
    simp

/-- C2 witness: each precedence rung exercised at a concrete input. -/
theorem c2_classifier_precedence_witness :
    (_handle_download_error bareEnv
        { isDownloadError := true, text := bothMarkersDetail }).1 = FailureCategory.AuthRequired
  ∧ _handle_download_error bareEnv
        { isDownloadError := false, text := "This video is private" }
      = (FailureCategory.Private, PRIVATE_MSG)
  ∧ _handle_download_error bareEnv
        { isDownloadError := true,
          text := "The uploader has not made this video available in your country" }
      = (FailureCategory.GeoBlocked, GEO_MSG)
  ∧ _handle_download_error bareEnv { isDownloadError := true, text := "HTTP Error 404" }
      = (FailureCategory.Unknown, "Ошибка: " ++ "HTTP Error 404") := by
  refine ⟨?w1, ?w2, ?w3, ?w4⟩
  case w1 =>
    exact (c2_classifier_precedence bareEnv
      { isDownloadError := true, text := bothMarkersDetail }).2.2.2.2 (by decide) (by decide)
      (by decide)
  case w2 =>
    exact (c2_classifier_precedence bareEnv
      { isDownloadError := false, text := "This video is private" }).2.1 (by decide) (by decide)
  case w3 =>
    exact (c2_classifier_precedence bareEnv
      { isDownloadError := true,
        text := "The uploader has not made this video available in your country" }).2.2.1
      (by decide) (by decide) (by decide)
  case w4 =>
    exact (c2_classifier_precedence bareEnv
      { isDownloadError := true, text := "HTTP Error 404" }).2.2.2.1
      (by decide) (by decide) (by decide)

/-- C5: for an AuthRequired classification, the reply text is the base message
with the cookies hint appended exactly when no cookie file is configured
(`_cookies_path` yields none); when one is configured the hint is absent from
the reply (the reply is the bare base message, which does not contain the
hint). -/
theorem c5_auth_hint_iff (env : Env) (e : Exc) (h : authMatch e = true) :
    ((_cookies_path env).isNone = true →
        (_handle_download_error env e).2 = AUTH_MSG ++ COOKIES_HINT
        ∧ containsSub COOKIES_HINT (_handle_download_error env e).2 = true)
  ∧ ((_cookies_path env).isSome = true →
        (_handle_download_error env e).2 = AUTH_MSG
        ∧ containsSub COOKIES_HINT (_handle_download_error env e).2 = false) := by
  constructor
  case left =>
    intro hc
    have hmsg : (_handle_download_error env e).2 = AUTH_MSG ++ COOKIES_HINT := by
      unfold _handle_download_error
      rw [h]
      simp [hc]
    refine ⟨hmsg, ?_⟩
    rw [hmsg]
    exact containsSub_append_right AUTH_MSG COOKIES_HINT
  case right =>
    intro hc
    have hnone : (_cookies_path env).isNone = false := by
      cases hcp : _cookies_path env with
      | none => rw [hcp] at hc; exact absurd hc (by decide)
      | some p => rfl
    have hmsg : (_handle_download_error env e).2 = AUTH_MSG := by
      unfold _handle_download_error
      rw [h]
      simp [hnone]
    refine ⟨hmsg, ?_⟩
    rw [hmsg]
    decide

/-- An environment whose `YT_COOKIES` points at a file that exists on disk. -/
def cookiesEnv : Env :=
  { ytCookies := some ("/data/cookies.txt"), ffmpegPath := none,
    files := ["/data/cookies.txt"] }

/-- A `DownloadError` carrying the sign-in marker. -/
def signInExc : Exc := { isDownloadError := true, text := "Sign in to confirm your age" }

/-- C5 witness: the hint is present with no cookie file configured and absent
with one configured, at a concrete AuthRequired failure. -/
theorem c5_auth_hint_iff_witness :
    ((_handle_download_error bareEnv signInExc).2 = AUTH_MSG ++ COOKIES_HINT
      ∧ containsSub COOKIES_HINT (_handle_download_error bareEnv signInExc).2 = true)
  ∧ ((_handle_download_error cookiesEnv signInExc).2 = AUTH_MSG
      ∧ containsSub COOKIES_HINT (_handle_download_error cookiesEnv signInExc).2 = false) := by
  constructor
  case left =>
    exact (c5_auth_hint_iff bareEnv signInExc (by decide)).1 (by decide)
  case right =>
    exact (c5_auth_hint_iff cookiesEnv signInExc (by decide)).2 (by decide)

/-- C9: the AuthRequired branch requires a `DownloadError` instance.  Any
exception that is not one — whatever its text, markers included — is never
classified AuthRequired; it falls through to the Private / GeoBlocked checks
and the verbatim-detail fallback. -/
theorem c9_requires_download_error (env : Env) (e : Exc)
    (h : e.isDownloadError = false) :
    (_handle_download_error env e).1 ≠ FailureCategory.AuthRequired
  ∧ _handle_download_error env e =
      (if containsSub PRIVATE_PATTERN e.text then (FailureCategory.Private, PRIVATE_MSG)
       else if containsSub GEO_PATTERN e.text then (FailureCategory.GeoBlocked, GEO_MSG)
       else (FailureCategory.Unknown, "Ошибка: " ++ e.text)) := by
  have hm : authMatch e = false := by simp [authMatch, h]
  have htail : _handle_download_error env e =
      (if containsSub PRIVATE_PATTERN e.text then (FailureCategory.Private, PRIVATE_MSG)
       else if containsSub GEO_PATTERN e.text then (FailureCategory.GeoBlocked, GEO_MSG)
       else (FailureCategory.Unknown, "Ошибка: " ++ e.text)) := by
    unfold _handle_download_error
    rw [hm]
    simp
  refine ⟨?ne, htail⟩
  rw [htail]
  by_cases hp : containsSub PRIVATE_PATTERN e.text = true
  case pos => simp [hp]
  case neg =>
    rw [Bool.not_eq_true] at hp
    by_cases hg : containsSub GEO_PATTERN e.text = true
    case pos => simp [hp, hg]
    case neg =>
      rw [Bool.not_eq_true] at hg
      simp [hp, hg]

/-- C9 witness: a non-`DownloadError` exception whose text contains the
sign-in marker falls through to the Unknown fallback with the verbatim
detail. -/
theorem c9_requires_download_error_witness :
    (_handle_download_error bareEnv
        { isDownloadError := false, text := "Sign in to confirm your age" }).1
      ≠ FailureCategory.AuthRequired
  ∧ _handle_download_error bareEnv
        { isDownloadError := false, text := "Sign in to confirm your age" }
      = (FailureCategory.Unknown, "Ошибка: " ++ "Sign in to confirm your age") := by
  have h := c9_requires_download_error bareEnv
    { isDownloadError := false, text := "Sign in to confirm your age" } (by decide)
  refine ⟨h.1, ?_⟩
  rw [h.2]
  decide

/-- C10: when `YT_COOKIES` is set (non-empty) but the file does not exist on
disk, no cookie file is configured: `_cookies_path` yields none, no
`cookiefile` option is passed to the extractor (the options equal those of an
environment with `YT_COOKIES` unset), and an AuthRequired classification still
carries the remediation hint — exactly as with no cookie file at all. -/
theorem c10_dangling_cookie_path (env : Env) (p : String)
    (h1 : env.ytCookies = some p) (h2 : p.isEmpty = false)
    (h3 : env.files.contains p = false) :
    _cookies_path env = none
  ∧ (∀ outtmpl : String, (_base_opts env outtmpl).cookiefile = none)
  ∧ (∀ outtmpl : String,
        _base_opts env outtmpl = _base_opts { env with ytCookies := none } outtmpl)
  ∧ (∀ e : Exc, authMatch e = true →
        (_handle_download_error env e).2 = AUTH_MSG ++ COOKIES_HINT
        ∧ _handle_download_error env e =
            _handle_download_error { env with ytCookies := none } e) := by
  have h3' : p ∉ env.files := by simpa using h3
  have hcp : _cookies_path env = none := by
    unfold _cookies_path
    rw [h1]
    simp [h2, h3']
  have hcpn : _cookies_path { env with ytCookies := none } = none := by
    unfold _cookies_path
    simp
  refine ⟨hcp, ?opts, ?optsEq, ?hint⟩
  case opts =>
    intro outtmpl
    simp [_base_opts, hcp]
  case optsEq =>
    intro outtmpl
    simp [_base_opts, hcp, hcpn]
  case hint =>
    intro e hm
    have hmsg : (_handle_download_error env e).2 = AUTH_MSG ++ COOKIES_HINT := by
      unfold _handle_download_error
      rw [hm]
      simp [hcp]
    have hmsgn : _handle_download_error { env with ytCookies := none } e
        = (FailureCategory.AuthRequired, AUTH_MSG ++ COOKIES_HINT) := by
      unfold _handle_download_error
      rw [hm]
      simp [hcpn]
    have hmsgf : _handle_download_error env e
        = (FailureCategory.AuthRequired, AUTH_MSG ++ COOKIES_HINT) := by
      unfold _handle_download_error
      rw [hm]
      simp [hcp]
    exact ⟨hmsg, by rw [hmsgf, hmsgn]⟩

/-- C10 witness: `YT_COOKIES` pointing at a missing file behaves as if unset,
at a concrete environment and failure. -/
theorem c10_dangling_cookie_path_witness :
    _cookies_path { ytCookies := some ("/data/cookies.txt"), ffmpegPath := none, files := [] }
      = none
  ∧ (_base_opts { ytCookies := some ("/data/cookies.txt"), ffmpegPath := none, files := [] }
        (outtmplFor BASE_DIR)).cookiefile = none
  ∧ (_handle_download_error
        { ytCookies := some ("/data/cookies.txt"), ffmpegPath := none, files := [] }
        signInExc).2 = AUTH_MSG ++ COOKIES_HINT := by
  have h := c10_dangling_cookie_path
    { ytCookies := some ("/data/cookies.txt"), ffmpegPath := none, files := [] }
    ("/data/cookies.txt") rfl (by decide) (by decide)
  exact ⟨h.1, h.2.1 (outtmplFor BASE_DIR), (h.2.2.2 signInExc (by decide)).1⟩

/-- The audio-passthrough format string (line 124). -/
def AUDIO_M4A_FORMAT : String := "bestaudio[ext=m4a]/bestaudio/best"

/-- The audio-transcode format string (line 137). -/
def MP3_FORMAT : String := "bestaudio/best"

/-- The video format string (line 159). -/
def VIDEO_FORMAT : String :=
  "mp4[height<=720][filesize<48M]/mp4[height<=480]/best[filesize<48M]/best"

/-- The mp3 postprocessor entry (lines 138-142). -/
def MP3_POSTPROCESSOR : Postprocessor :=
  { key := "FFmpegExtractAudio", preferredcodec := "mp3", preferredquality := "192" }

/-- Splitting a character list at every occurrence of a separator. -/
def splitOnChar (sep : Char) : List Char → List (List Char)
  | [] => [[]]
  | x :: xs =>
      let r := splitOnChar sep xs
      if x = sep then [] :: r
      else
        match r with
        | [] => [[x]]
        | y :: ys => (x :: y) :: ys

/-- The selector ladder denoted by a yt-dlp format string: the alternatives
separated by the fallback operator `/`, tried in order, first viable wins. -/
def selectorLadder (format : String) : List String :=
  (splitOnChar '/' format.toList).map String.mk

/-- The VideoCapped selector ladder: the alternatives of `VIDEO_FORMAT`. -/
def videoSelectors : List String := selectorLadder VIDEO_FORMAT

/-- The three-selector ladder the claim describes: preferred container with
height ≤ 720 and size < cap, preferred container with height ≤ 480, best
overall regardless of size — and nothing else. -/
def claimedVideoSelectors : List String :=
  ["mp4[height<=720][filesize<48M]", "mp4[height<=480]", "best"]

/-- C4 counterexample: the VideoCapped ladder has four rungs, not three: the
third rung is `best` constrained to size < cap, and only the fourth is the
unconstrained `best` — so the ladder is not the claimed three-selector one. -/
theorem c4_counterexample :
    videoSelectors.length = 4
  ∧ videoSelectors ≠ claimedVideoSelectors
  ∧ videoSelectors.getD 2 ("") = "best[filesize<48M]" := by
  refine ⟨by decide, by decide, by decide⟩

/-- C4 (amended): the VideoCapped format policy is exactly four selectors
tried in order: (a) preferred container (mp4), height ≤ 720, size < cap;
(b) preferred container, height ≤ 480, unconstrained size; (c) best overall
stream with size < cap; (d) best overall stream regardless of size. -/
theorem c4_video_selector_ladder :
    videoSelectors =
      ["mp4[height<=720][filesize<48M]", "mp4[height<=480]", "best[filesize<48M]", "best"] := by
  decide

/-- `dest_dir.glob("*.mp3")` (line 148): the directory entries ending in
`.mp3`, in directory order. -/
def globMp3 (dirFiles : List String) : List String :=
  dirFiles.filter (fun p => p.endsWith (".mp3"))

/-- Line 148: `next((p for p in dest_dir.glob("*.mp3") if title in p.name), base)`
— the first globbed file whose name contains the title, else the computed
default path. -/
def mp3FinalPath (mp3Files : List String) (title : String) (base : String) : String :=
  match mp3Files.filter (fun p => containsSub title (pathName p)) with
  | [] => base
  | p :: _ => p

/-- Modelled from the claim's words (the code itself has no such existence
check): compute the expected path first and scan the directory only when the
expected path does not exist there, falling back to the default on no match. -/
def claimFinalPath (mp3Files : List String) (title : String) (base : String) : String :=
  if mp3Files.contains base then base
  else mp3FinalPath mp3Files title base

/-- A directory listing in which the expected path exists but another matching
file precedes it. -/
def c6Dir : List String := ["/tmp/other TITLE.mp3", "/tmp/TITLE.mp3"]

/-- C6 counterexample: with the expected path `/tmp/TITLE.mp3` present in the
directory, the code still scans and returns the other matching file — the scan
is not gated on the expected path's existence, contradicting the claim. -/
theorem c6_counterexample :
    c6Dir.contains ("/tmp/TITLE.mp3") = true
  ∧ mp3FinalPath c6Dir ("TITLE") ("/tmp/TITLE.mp3") = "/tmp/other TITLE.mp3"
  ∧ mp3FinalPath c6Dir ("TITLE") ("/tmp/TITLE.mp3")
      ≠ claimFinalPath c6Dir ("TITLE") ("/tmp/TITLE.mp3") := by
  refine ⟨by decide, by decide, by decide⟩

/-- C6 (amended): the expected output path is computed deterministically
first, and the working directory is then always scanned (with no check that
the expected path exists): the first `.mp3` whose name contains the title is
returned, and the computed default path is returned when the scan finds no
match. -/
theorem c6_mp3_artifact_location (mp3Files : List String) (title base : String) :
    (mp3Files.filter (fun p => containsSub title (pathName p)) = [] →
        mp3FinalPath mp3Files title base = base)
  ∧ (∀ q qs, mp3Files.filter (fun p => containsSub title (pathName p)) = q :: qs →
        mp3FinalPath mp3Files title base = q) := by
  constructor
  case left =>
    intro h
    unfold mp3FinalPath
    rw [h]
  case right =>
    intro q qs h
    unfold mp3FinalPath
    rw [h]

/-- C6 witness: the fallback to the default on no match, and the first-match
scan, at concrete directory listings. -/
theorem c6_mp3_artifact_location_witness :
    mp3FinalPath ["/tmp/unrelated.mp3"] ("TITLE") ("/tmp/TITLE.mp3") = "/tmp/TITLE.mp3"
  ∧ mp3FinalPath ["/tmp/a TITLE b.mp3"] ("TITLE") ("/tmp/TITLE.mp3") = "/tmp/a TITLE b.mp3" := by
  constructor
  case left =>
    exact (c6_mp3_artifact_location ["/tmp/unrelated.mp3"] ("TITLE") ("/tmp/TITLE.mp3")).1
      (by decide)
  case right =>
    exact (c6_mp3_artifact_location ["/tmp/a TITLE b.mp3"] ("TITLE") ("/tmp/TITLE.mp3")).2
      ("/tmp/a TITLE b.mp3") [] (by decide)

/-- Chars of the last path component's name without its extension
(`Path.with_suffix` semantics: no dot, or a leading dot only, means no
extension to strip). -/
def dropLastExt (name : List Char) : List Char :=
  match name.reverse.dropWhile (fun c => c ≠ '.') with
  | [] => name
  | [_] => name
  | _ :: rest => rest.reverse

/-- `Path(...).with_suffix(".mp3")` (line 146). -/
def with_suffix_mp3 (p : String) : String :=
  let cs := p.toList
  let nameLen := (cs.reverse.takeWhile (fun c => c ≠ '/')).length
  String.mk (cs.take (cs.length - nameLen) ++ dropLastExt (cs.drop (cs.length - nameLen))
    ++ (".mp3").toList)

/-- The result the extraction engine hands back on success: the info dict and
the `prepare_filename(info)` path under the requested output template. -/
structure GatewayResult where
  info : Info
  preparedName : String

/-- The opaque extraction capability (`yt_dlp.YoutubeDL(...).extract_info`):
given the URL and the option dict, it either raises or yields a result. -/
def Gateway : Type := String → Opts → Except Exc GatewayResult

/-- An observable action of a handler: a chat reply, an invocation of the
extraction gateway (a network call), or a media delivery. -/
inductive Event where
  | reply (text : String)
  | gatewayCall (url : String) (opts : Opts)
  | deliver (d : Delivery)

/-- Whether an event is an invocation of the extraction gateway. -/
def isGatewayCall : Event → Bool
  | Event.gatewayCall _ _ => true
  | _ => false

/-- `download_audio_m4a` (lines 118-130): base options plus the m4a-preferring
format, one gateway call, the prepared filename as the artifact path. -/
def download_audio_m4a (env : Env) (gw : Gateway) (url destDir : String) :
    List Event × Except Exc (String × Info) :=
  let opts := { _base_opts env (outtmplFor destDir) with format := AUDIO_M4A_FORMAT }
  match gw url opts with
  | Except.error e => ([Event.gatewayCall url opts], Except.error e)
  | Except.ok r => ([Event.gatewayCall url opts], Except.ok (r.preparedName, r.info))

/-- `download_audio_mp3` (lines 132-149): base options plus the mp3 transcode
postprocessor, one gateway call, then the artifact located by
`mp3FinalPath` over the `.mp3` glob of the working directory. -/
def download_audio_mp3 (env : Env) (gw : Gateway) (dirFiles : List String)
    (url destDir : String) : List Event × Except Exc (String × Info) :=
  let opts := { _base_opts env (outtmplFor destDir) with
    format := MP3_FORMAT, postprocessors := [MP3_POSTPROCESSOR] }
  match gw url opts with
  | Except.error e => ([Event.gatewayCall url opts], Except.error e)
  | Except.ok r =>
      let base := with_suffix_mp3 r.preparedName
      let final := mp3FinalPath (globMp3 dirFiles) (r.info.title.getD ("")) base
      ([Event.gatewayCall url opts], Except.ok (final, r.info))

/-- `download_video` (lines 151-163): base options plus the capped-video
format ladder, one gateway call. -/
def download_video (env : Env) (gw : Gateway) (url destDir : String) :
    List Event × Except Exc (String × Info) :=
  let opts := { _base_opts env (outtmplFor destDir) with format := VIDEO_FORMAT }
  match gw url opts with
  | Except.error e => ([Event.gatewayCall url opts], Except.error e)
  | Except.ok r => ([Event.gatewayCall url opts], Except.ok (r.preparedName, r.info))

/-- The `try/except` tail shared by every handler (e.g. lines 210-214):
deliver via `_send_file_or_link` on success, classify and reply on failure. -/
def handleOutcome (env : Env) (disk : List (String × Nat))
    (res : Except Exc (String × Info)) (kind : String) : List Event :=
  match res with
  | Except.ok (fpath, info) => [Event.deliver (_send_file_or_link disk fpath info kind)]
  | Except.error e => [Event.reply (_handle_download_error env e).2]

/-- Python `text.split(maxsplit=1)`. -/
def splitMax1 (s : String) : List String :=
  match s.toList.dropWhile Char.isWhitespace with
  | [] => []
  | l =>
      match (l.dropWhile (fun c => !c.isWhitespace)).dropWhile Char.isWhitespace with
      | [] => [String.mk (l.takeWhile (fun c => !c.isWhitespace))]
      | r => [String.mk (l.takeWhile (fun c => !c.isWhitespace)), String.mk r]

/-- Usage hint of `/audio` (line 207). -/
def AUDIO_USAGE_MSG : String := "Пришли так: /audio <ссылка YouTube>"

/-- Usage hint of `/mp3` (line 222). -/
def MP3_USAGE_MSG : String := "Пришли так: /mp3 <ссылка YouTube>"

/-- Usage hint of `/video` (line 235). -/
def VIDEO_USAGE_MSG : String := "Пришли так: /video <ссылка YouTube>"

/-- The fixed TranscodeUnavailable reply of `/mp3` (line 219). -/
def MP3_UNAVAILABLE_MSG : String := "MP3 временно недоступно (нет ffmpeg). Попробуй /audio (m4a)."

/-- Progress acknowledgment of the audio handlers (lines 196, 209). -/
def AUDIO_PROGRESS_MSG : String := "Скачиваю аудио… ⏳"

/-- Progress acknowledgment of `/mp3` (line 224). -/
def MP3_PROGRESS_MSG : String := "Готовлю MP3… ⏳"

/-- Progress acknowledgment of `/video` (line 237). -/
def VIDEO_PROGRESS_MSG : String := "Скачиваю видео… ⏳"

/-- `cmd_audio` (lines 203-214) as its event trace. -/
def cmd_audio (env : Env) (disk : List (String × Nat)) (gw : Gateway) (text : String) :
    List Event :=
  let parts := splitMax1 text
  if parts.length < 2 then [Event.reply AUDIO_USAGE_MSG]
  else
    let url := (parts.getD 1 ("")).trim
    let dl := download_audio_m4a env gw url BASE_DIR
    Event.reply AUDIO_PROGRESS_MSG :: (dl.1 ++ handleOutcome env disk dl.2 ("audio"))

/-- `cmd_mp3` (lines 216-229) as its event trace: the ffmpeg availability
check comes first, before the argument check, the progress reply and the
gateway call. -/
def cmd_mp3 (env : Env) (disk : List (String × Nat)) (gw : Gateway)
    (dirFiles : List String) (text : String) : List Event :=
  if !(truthy env.ffmpegPath) then [Event.reply MP3_UNAVAILABLE_MSG]
  else
    let parts := splitMax1 text
    if parts.length < 2 then [Event.reply MP3_USAGE_MSG]
    else
      let url := (parts.getD 1 ("")).trim
      let dl := download_audio_mp3 env gw dirFiles url BASE_DIR
      Event.reply MP3_PROGRESS_MSG :: (dl.1 ++ handleOutcome env disk dl.2 ("audio"))

/-- `cmd_video` (lines 231-242) as its event trace. -/
def cmd_video (env : Env) (disk : List (String × Nat)) (gw : Gateway) (text : String) :
    List Event :=
  let parts := splitMax1 text
  if parts.length < 2 then [Event.reply VIDEO_USAGE_MSG]
  else
    let url := (parts.getD 1 ("")).trim
    let dl := download_video env gw url BASE_DIR
    Event.reply VIDEO_PROGRESS_MSG :: (dl.1 ++ handleOutcome env disk dl.2 ("video"))

/-- C3: when ffmpeg is unavailable, `/mp3` replies with the fixed
TranscodeUnavailable message and nothing else — in particular the trace holds
no gateway call, whatever the message text (the check precedes URL parsing). -/
theorem c3_mp3_no_ffmpeg (env : Env) (disk : List (String × Nat)) (gw : Gateway)
    (dirFiles : List String) (text : String) (h : truthy env.ffmpegPath = false) :
    cmd_mp3 env disk gw dirFiles text = [Event.reply MP3_UNAVAILABLE_MSG]
  ∧ ∀ ev ∈ cmd_mp3 env disk gw dirFiles text, isGatewayCall ev = false := by
  have htrace : cmd_mp3 env disk gw dirFiles text = [Event.reply MP3_UNAVAILABLE_MSG] := by
    unfold cmd_mp3
    rw [h]
    simp
  refine ⟨htrace, ?_⟩
  intro ev hev
  rw [htrace] at hev
  rcases List.mem_singleton.mp hev with rfl
  rfl

/-- A gateway oracle that always raises. -/
def gwRaise : Gateway := fun _ _ => Except.error { isDownloadError := true, text := "boom" }

/-- C3 witness: with no ffmpeg, a well-formed `/mp3` request yields exactly
the TranscodeUnavailable reply and no gateway call. -/
theorem c3_mp3_no_ffmpeg_witness :
    cmd_mp3 bareEnv [] gwRaise [] ("/mp3 https://youtu.be/x") = [Event.reply MP3_UNAVAILABLE_MSG] :=
  (c3_mp3_no_ffmpeg bareEnv [] gwRaise [] ("/mp3 https://youtu.be/x") (by decide)).1

/-- C7: a nominally successful acquisition whose artifact is neither on disk
within the size cap nor carries a (truthy) direct stream URL still produces a
terminal event: the explicit unable-to-deliver reply, never silence and never
an inline or link delivery. -/
theorem c7_unable_reply_surfaced (env : Env) (disk : List (String × Nat)) (fpath : String)
    (info : Info) (kind : String) (h1 : onDiskWithinCap disk fpath = false)
    (h2 : truthy info.url = false) :
    handleOutcome env disk (Except.ok (fpath, info)) kind
      = [Event.deliver (Delivery.answer UNABLE_MSG)] := by
  have hmsg : linkOrUnavailable info = Delivery.answer UNABLE_MSG := by
    simp [linkOrUnavailable, h2]
  have hsend : _send_file_or_link disk fpath info kind = Delivery.answer UNABLE_MSG := by
    unfold onDiskWithinCap at h1
    unfold _send_file_or_link
    cases hl : disk.lookup fpath with
    | none => exact hmsg
    | some size =>
        rw [hl] at h1
        simp only [decide_eq_false_iff_not] at h1
        simp [h1, hmsg]
  show [Event.deliver (_send_file_or_link disk fpath info kind)]
      = [Event.deliver (Delivery.answer UNABLE_MSG)]
  rw [hsend]

/-- C7 witness: a success carrying a dangling path and no URL surfaces the
unable-to-deliver reply. -/
theorem c7_unable_reply_surfaced_witness :
    handleOutcome bareEnv [] (Except.ok (("/tmp/gone.m4a"), { title := some ("Song X") }))
      ("audio") = [Event.deliver (Delivery.answer UNABLE_MSG)] :=
  c7_unable_reply_surfaced bareEnv [] ("/tmp/gone.m4a") { title := some ("Song X") } ("audio")
    (by decide) (by decide)

/-- An environment in which ffmpeg is available. -/
def ffmpegEnv : Env :=
  { ytCookies := none, ffmpegPath := some ("/usr/bin/ffmpeg"), files := [] }

/-- C8 counterexample: `/mp3` with its URL argument missing, sent while the
transcoding tool is unavailable, is answered with the TranscodeUnavailable
message — not with the usage-hint message the claim promises for every
URL-less command. -/
theorem c8_counterexample :
    (splitMax1 ("/mp3")).length < 2
  ∧ cmd_mp3 bareEnv [] gwRaise [] ("/mp3") = [Event.reply MP3_UNAVAILABLE_MSG]
  ∧ MP3_UNAVAILABLE_MSG ≠ MP3_USAGE_MSG := by
  refine ⟨by decide, rfl, by decide⟩

/-- C8 (amended): a command message missing its URL argument is answered with
the fixed usage hint and triggers no acquisition attempt — for `/audio` and
`/video` always, and for `/mp3` when the transcoding tool is available; when
it is unavailable, `/mp3` is answered with the fixed TranscodeUnavailable
message instead, still with no acquisition attempt.  In every case the trace
holds no gateway call. -/
theorem c8_missing_url (env : Env) (disk : List (String × Nat)) (gw : Gateway)
    (dirFiles : List String) (text : String) (h : (splitMax1 text).length < 2) :
    cmd_audio env disk gw text = [Event.reply AUDIO_USAGE_MSG]
  ∧ (truthy env.ffmpegPath = true →
        cmd_mp3 env disk gw dirFiles text = [Event.reply MP3_USAGE_MSG])
  ∧ (truthy env.ffmpegPath = false →
        cmd_mp3 env disk gw dirFiles text = [Event.reply MP3_UNAVAILABLE_MSG])
  ∧ cmd_video env disk gw text = [Event.reply VIDEO_USAGE_MSG]
  ∧ (∀ ev ∈ cmd_audio env disk gw text, isGatewayCall ev = false)
  ∧ (∀ ev ∈ cmd_mp3 env disk gw dirFiles text, isGatewayCall ev = false)
  ∧ (∀ ev ∈ cmd_video env disk gw text, isGatewayCall ev = false) := by
  have haud : cmd_audio env disk gw text = [Event.reply AUDIO_USAGE_MSG] := by
    unfold cmd_audio
    simp [h]
  have hvid : cmd_video env disk gw text = [Event.reply VIDEO_USAGE_MSG] := by
    unfold cmd_video
    simp [h]
  have hmp3t : truthy env.ffmpegPath = true →
      cmd_mp3 env disk gw dirFiles text = [Event.reply MP3_USAGE_MSG] := by
    intro hf
    unfold cmd_mp3
    rw [hf]
    simp [h]
  have hmp3f : truthy env.ffmpegPath = false →
      cmd_mp3 env disk gw dirFiles text = [Event.reply MP3_UNAVAILABLE_MSG] := by
    intro hf
    unfold cmd_mp3
    rw [hf]
    simp
  refine ⟨haud, hmp3t, hmp3f, hvid, ?ga, ?gm, ?gv⟩
  case ga =>
    intro ev hev
    rw [haud] at hev
    rcases List.mem_singleton.mp hev with rfl
    rfl
  case gm =>
    intro ev hev
    cases hf : truthy env.ffmpegPath with
    | true =>
        rw [hmp3t hf] at hev
        rcases List.mem_singleton.mp hev with rfl
        rfl
    | false =>
        rw [hmp3f hf] at hev
        rcases List.mem_singleton.mp hev with rfl
        rfl
  case gv =>
    intro ev hev
    rw [hvid] at hev
    rcases List.mem_singleton.mp hev with rfl
    rfl

/-- C8 witness: URL-less `/audio`, `/mp3` (ffmpeg available) and `/video`
each yield exactly their usage hint. -/
theorem c8_missing_url_witness :
    cmd_audio ffmpegEnv [] gwRaise ("/audio") = [Event.reply AUDIO_USAGE_MSG]
  ∧ cmd_mp3 ffmpegEnv [] gwRaise [] ("/mp3") = [Event.reply MP3_USAGE_MSG]
  ∧ cmd_video ffmpegEnv [] gwRaise ("/video") = [Event.reply VIDEO_USAGE_MSG] := by
  refine ⟨?w1, ?w2, ?w3⟩
  case w1 =>
    exact (c8_missing_url ffmpegEnv [] gwRaise [] ("/audio") (by decide)).1
  case w2 =>
    exact (c8_missing_url ffmpegEnv [] gwRaise [] ("/mp3") (by decide)).2.1 (by decide)
  case w3 =>
    exact (c8_missing_url ffmpegEnv [] gwRaise [] ("/video") (by decide)).2.2.2.1
